import Mathlib

/-!
Verification development for the B2B linesheet generator service.

The repository contains two generator variants:
* `excel-generator.js` under `src/` — the template-based generator
  (`generateExcel`, `generateSeparateExcelFiles`, `fetchImageBuffer`,
  `getOptimizedImageUrl`, `getExcelColumn`, `hashString`, `SIZE_BREAKS`);
* the from-scratch generator under `src/unnamed/part_000`
  (`addCatalogSheet`, `addOrderSummarySheet`, and its own copies of
  `getExcelColumn`, `hashString`, `SIZE_BREAKS`).

This file shallowly embeds the data model and the pure logic of those
functions and proves the spec's testable properties about them.  Machine
integers of JavaScript are modelled as `Nat`/`Int` with explicit 32-bit
wrapping where the source relies on it; byte buffers and the network are
modelled as oracles; all definitions are executable.
-/

/-! ## Column letters (`getExcelColumn`)

Source (both variants):
```
function getExcelColumn(column) {
  let temp, letter = '';
  while (column > 0) {
    temp = (column - 1) % 26;
    letter = String.fromCharCode(temp + 65) + letter;
    column = (column - temp - 1) / 26;
  }
  return letter;
}
```
Note `(column - temp - 1) / 26 = (column - 1) / 26` exactly, since
`temp = (column - 1) % 26`.  The loop is embedded with explicit fuel
(the loop runs at most `column` times because the counter strictly
decreases), which keeps the definition kernel-reducible. -/

def getExcelColumnGo (fuel column : Nat) : String :=
  match fuel with
  | 0 => ""
  | fuel + 1 =>
    if column = 0 then ""
    else getExcelColumnGo fuel ((column - 1) / 26) ++
      String.singleton (Char.ofNat ((column - 1) % 26 + 65))

def getExcelColumn (column : Nat) : String :=
  getExcelColumnGo column column

/-- Modelled from the spec: the reference letters-to-index inverse used by
the round-trip property ("converting to letters and back (via a reference
inverse) yields n"); it is the standard base-26 evaluation of the letters,
`'A' ↦ 1`, …, `'Z' ↦ 26`. -/
def lettersToIndex (s : String) : Nat :=
  s.data.foldl (fun acc c => acc * 26 + (c.toNat - 64)) 0

theorem getExcelColumnGo_fuel_irrel :
    ∀ column f₁ f₂, column ≤ f₁ → column ≤ f₂ →
      getExcelColumnGo f₁ column = getExcelColumnGo f₂ column := by
  intro column
  induction column using Nat.strong_induction_on with
  | _ column ih =>
    intro f₁ f₂ h₁ h₂
    match f₁, f₂ with
    | 0, 0 => rfl
    | 0, f₂ + 1 =>
      interval_cases column
      rfl
    | f₁ + 1, 0 =>
      interval_cases column
      rfl
    | f₁ + 1, f₂ + 1 =>
      by_cases hc : column = 0
      · simp [getExcelColumnGo, hc]
      · have hpos : 0 < column := Nat.pos_of_ne_zero hc
        have hlt : (column - 1) / 26 < column :=
          Nat.lt_of_le_of_lt (Nat.div_le_self _ _) (Nat.sub_lt hpos one_pos)
        have hle₁ : (column - 1) / 26 ≤ f₁ := by
          have := Nat.div_le_self (column - 1) 26
          omega
        have hle₂ : (column - 1) / 26 ≤ f₂ := by
          have := Nat.div_le_self (column - 1) 26
          omega
        simp only [getExcelColumnGo, if_neg hc]
        rw [ih _ hlt _ _ hle₁ hle₂]

theorem lettersToIndex_append_char (s : String) (c : Char) :
    lettersToIndex (s ++ String.singleton c) =
      lettersToIndex s * 26 + (c.toNat - 64) := by
  simp only [lettersToIndex, String.data_append]
  rw [show (String.singleton c).data = [c] from rfl, List.foldl_append]
  rfl

theorem char_code_inverts :
    ∀ t < 26, (Char.ofNat (t + 65)).toNat - 64 = t + 1 := by decide

/-- Round-trip of the column-letter encoding: `lettersToIndex` inverts
`getExcelColumn` for every `n` (so in particular on `[1, 16384]`). -/
theorem lettersToIndex_getExcelColumn (n : Nat) :
    lettersToIndex (getExcelColumn n) = n := by
  induction n using Nat.strong_induction_on with
  | _ n ih =>
    by_cases hn : n = 0
    · subst hn; rfl
    · have hpos : 0 < n := Nat.pos_of_ne_zero hn
      have hlt : (n - 1) / 26 < n :=
        Nat.lt_of_le_of_lt (Nat.div_le_self _ _) (Nat.sub_lt hpos one_pos)
      have hfuel : n - 1 ≥ (n - 1) / 26 := Nat.div_le_self _ _
      obtain ⟨m, rfl⟩ : ∃ m, n = m + 1 := ⟨n - 1, by omega⟩
      show lettersToIndex (getExcelColumnGo (m + 1) (m + 1)) = m + 1
      have h1 : getExcelColumnGo (m + 1) (m + 1) =
          if m + 1 = 0 then ""
          else getExcelColumnGo m ((m + 1 - 1) / 26) ++
            String.singleton (Char.ofNat ((m + 1 - 1) % 26 + 65)) := rfl
      rw [h1, if_neg (Nat.succ_ne_zero m)]
      simp only [Nat.add_sub_cancel]
      rw [getExcelColumnGo_fuel_irrel (m / 26) m (m / 26)
        (Nat.div_le_self _ _) (le_refl _)]
      rw [lettersToIndex_append_char]
      have hrt : lettersToIndex (getExcelColumn (m / 26)) = m / 26 :=
        ih (m / 26) (by omega)
      unfold getExcelColumn at hrt
      rw [hrt, char_code_inverts (m % 26) (Nat.mod_lt _ (by omega))]
      have := Nat.div_add_mod m 26
      omega

/-- C2: for every `n` in `[1, 16384]`, the reference letters-to-index
inverse applied to `getExcelColumn n` yields `n` again, and the spot
values hold: `1 ↦ "A"`, `26 ↦ "Z"`, `27 ↦ "AA"`, `702 ↦ "ZZ"`. -/
theorem getExcelColumn_roundtrip :
    (∀ n, 1 ≤ n → n ≤ 16384 → lettersToIndex (getExcelColumn n) = n) ∧
    getExcelColumn 1 = "A" ∧ getExcelColumn 26 = "Z" ∧
    getExcelColumn 27 = "AA" ∧ getExcelColumn 702 = "ZZ" :=
  ⟨fun n _ _ => lettersToIndex_getExcelColumn n,
    by decide, by decide, by decide, by decide⟩

/-- Witness for C2 at the concrete input `n = 702`. -/
theorem getExcelColumn_roundtrip_witness :
    1 ≤ 702 ∧ 702 ≤ 16384 ∧
    lettersToIndex (getExcelColumn 702) = 702 ∧ getExcelColumn 702 = "ZZ" :=
  ⟨by decide, by decide,
    getExcelColumn_roundtrip.1 702 (by decide) (by decide),
    getExcelColumn_roundtrip.2.2.2.2⟩

/-! ## Spreadsheet data model

Cells as ExcelJS exposes them to this program: a cell is blank, holds a
literal value, or holds a formula.  A formula cell may carry a cached
`result` and may be linked to a shared-formula master (ExcelJS's
`{ sharedFormula, result }` values); `cell.formula` yields the resolvable
formula text in either case, and `cell.type === ValueType.Formula` is true
for both plain and shared formulas. -/

inductive JsVal where
  | str (s : String)
  | num (q : ℚ)
  | boolean (b : Bool)
  deriving DecidableEq, Repr

inductive CellContent where
  | blank
  | value (v : JsVal)
  | formula (text : String) (result : Option JsVal)
  | sharedFormula (text : String) (master : String) (result : Option JsVal)
  deriving DecidableEq, Repr

def CellContent.isFormulaLike : CellContent → Bool
  | .formula _ _ => true
  | .sharedFormula _ _ _ => true
  | _ => false

def CellContent.hasSharedLinkage : CellContent → Bool
  | .sharedFormula _ _ _ => true
  | _ => false

/-- Style object of a cell, with the components the source manipulates
(`font`, `alignment`, `border`, `fill`, `numFmt` — the fields named in the
cloner's fallback path).  Aliasing of style objects is not observable in a
pure embedding, so the `JSON.parse(JSON.stringify(cell.style))` deep copy
is modelled as a structural (per-field) copy. -/
structure CellStyle where
  font : Option String := none
  alignment : Option String := none
  border : Option String := none
  fill : Option String := none
  numFmt : Option String := none
  deriving DecidableEq, Repr

def deepCopyStyle (s : CellStyle) : CellStyle :=
  { font := s.font, alignment := s.alignment, border := s.border,
    fill := s.fill, numFmt := s.numFmt }

structure SheetCell where
  content : CellContent
  style : CellStyle
  deriving DecidableEq, Repr

structure SheetRow where
  height : Option ℚ := none
  cells : List SheetCell := []
  deriving DecidableEq, Repr

structure Sheet where
  rows : List SheetRow := []
  colWidths : List (Option ℚ) := []
  deriving DecidableEq, Repr

def getCellAt (s : Sheet) (i j : Nat) : Option SheetCell :=
  match s.rows.get? i with
  | none => none
  | some r => r.cells.get? j

/-! ## Template sheet cloner (`generateExcel`, excel-generator.js 208–251)

```
templateSheet.eachRow({ includeEmpty: true }, (row, rowNumber) => {
  const newRow = catalogSheet.getRow(rowNumber);
  newRow.height = row.height;
  row.eachCell({ includeEmpty: true }, (cell, colNumber) => {
    const newCell = newRow.getCell(colNumber);
    if (cell.type === ExcelJS.ValueType.Formula) {
      newCell.value = { formula: cell.formula };
    } else {
      newCell.value = cell.value;
    }
    if (cell.style) { newCell.style = JSON.parse(JSON.stringify(cell.style)); }
  });
});
templateSheet.columns.forEach((col, index) => {
  if (col.width) { catalogSheet.getColumn(index + 1).width = col.width; }
});
```
A formula cell (shared or not) is copied as a plain `{ formula: text }`
value with no cached result and no shared-formula linkage; other cells are
copied verbatim; the style is deep-copied. -/

def cloneCell (c : SheetCell) : SheetCell :=
  { content :=
      match c.content with
      | .formula text _ => .formula text none
      | .sharedFormula text _ _ => .formula text none
      | other => other,
    style := deepCopyStyle c.style }

def cloneRow (r : SheetRow) : SheetRow :=
  { height := r.height, cells := r.cells.map cloneCell }

def copyColWidth (w : Option ℚ) : Option ℚ :=
  match w with
  | some q => if q = 0 then none else some q
  | none => none

def cloneSheet (s : Sheet) : Sheet :=
  { rows := s.rows.map cloneRow,
    colWidths := s.colWidths.map copyColWidth }

/-! The normalization pass `convertSharedFormulasToNormal`
(excel-generator.js 170–197):
```
const formulaText = cell.formula;
if (formulaText) {
  const oldValue = cell.value;
  cell.value = { formula: formulaText };
  if (oldValue && oldValue.result) { cell.result = oldValue.result; }
}
```
It re-sets a formula cell as a plain `{ formula: text }` value only when
the formula text is truthy — a formula cell with empty text (shared
linkage included) is left untouched — and restores the previously cached
result only when that result is itself truthy: a falsy cached result such
as `0` or `''` is dropped (the restored value becomes undefined).  The
surrounding `oldValue &&` part of the guard is always satisfied for a
formula cell, whose value is an object.  Blank and literal cells are not
visited. -/

def JsVal.isTruthy : JsVal → Bool
  | .str s => decide (s ≠ "")
  | .num q => decide (q ≠ 0)
  | .boolean b => b

def keepTruthyResult : Option JsVal → Option JsVal
  | some v => if v.isTruthy then some v else none
  | none => none

def normalizeFormulaCell (c : SheetCell) : SheetCell :=
  { c with content :=
      match c.content with
      | .formula text r =>
        if text = "" then .formula text r
        else .formula text (keepTruthyResult r)
      | .sharedFormula text m r =>
        if text = "" then .sharedFormula text m r
        else .formula text (keepTruthyResult r)
      | other => other }

def convertSharedFormulasToNormal (wb : List Sheet) : List Sheet :=
  wb.map (fun s =>
    { s with rows := s.rows.map (fun r =>
        { r with cells := r.cells.map normalizeFormulaCell }) })

theorem get?_map_eq {α β : Type} (f : α → β) (l : List α) (n : Nat) :
    (l.map f).get? n = (l.get? n).map f := by
  induction l generalizing n with
  | nil => cases n <;> rfl
  | cons a l ih => cases n <;> simp [ih]

/-- C1: the sheet produced by the template cloner holds, at every cell
position of the template, the same literal value and an equal copy of the
style for non-formula cells, and for formula cells (shared or not) a plain
self-contained formula value carrying the cell's resolvable formula text
with no shared-formula linkage; the normalization pass re-sets a formula
cell with nonempty text as a plain formula whose cached result is retained
only when truthy (a falsy cached result such as 0 is dropped), and leaves
an empty-text cell — shared linkage included — untouched.  (The clone
does not depend on the catalog; independent ownership of the copied style
is modelled as the structural `deepCopyStyle`, whose result equals the
original.) -/
theorem cloneSheet_faithful (s : Sheet) (i j : Nat) (c : SheetCell)
    (h : getCellAt s i j = some c) :
    getCellAt (cloneSheet s) i j = some (cloneCell c) ∧
    (c.content.isFormulaLike = false → (cloneCell c).content = c.content) ∧
    (∀ text r, c.content = .formula text r →
      (cloneCell c).content = .formula text none) ∧
    (∀ text m r, c.content = .sharedFormula text m r →
      (cloneCell c).content = .formula text none) ∧
    (cloneCell c).content.hasSharedLinkage = false ∧
    (cloneCell c).style = deepCopyStyle c.style ∧
    deepCopyStyle c.style = c.style ∧
    (∀ text r, text ≠ "" → c.content = .formula text r →
      (normalizeFormulaCell c).content = .formula text (keepTruthyResult r)) ∧
    (∀ text m r, text ≠ "" → c.content = .sharedFormula text m r →
      (normalizeFormulaCell c).content = .formula text (keepTruthyResult r)) ∧
    (∀ m r, c.content = .sharedFormula "" m r → normalizeFormulaCell c = c) := by
  refine ⟨?_, ?_, ?_, ?_, ?_, rfl, ?_, ?_, ?_, ?_⟩
  · unfold getCellAt at h ⊢
    have h1 : (cloneSheet s).rows = s.rows.map cloneRow := rfl
    rw [h1, get?_map_eq]
    cases hr : s.rows.get? i with
    | none =>
      rw [hr] at h
      exact Option.noConfusion h
    | some r =>
      rw [hr] at h
      replace h : r.cells.get? j = some c := h
      show ((r.cells.map cloneCell).get? j) = some (cloneCell c)
      rw [get?_map_eq, h]
      rfl
  · intro hnf
    cases hc : c.content with
    | blank => simp [cloneCell, hc]
    | value v => simp [cloneCell, hc]
    | formula t r =>
      rw [hc] at hnf
      exact absurd hnf (by simp [CellContent.isFormulaLike])
    | sharedFormula t m r =>
      rw [hc] at hnf
      exact absurd hnf (by simp [CellContent.isFormulaLike])
  · intro text r hc; simp [cloneCell, hc]
  · intro text m r hc; simp [cloneCell, hc]
  · cases hc : c.content <;> simp [cloneCell, hc, CellContent.hasSharedLinkage]
  · cases c.style; rfl
  · intro text r htext hc
    simp [normalizeFormulaCell, hc, htext]
  · intro text m r htext hc
    simp [normalizeFormulaCell, hc, htext]
  · intro m r hc
    obtain ⟨cc, cs⟩ := c
    replace hc : cc = .sharedFormula "" m r := hc
    subst hc
    simp [normalizeFormulaCell]

def demoSharedCell : SheetCell :=
  { content := .sharedFormula "AH7*AI7" "AH6" none,
    style := { numFmt := some "$#,##0.00" } }

def demoTemplateSheet : Sheet :=
  { rows := [
      { height := some 20,
        cells := [
          { content := .value (.str "Retailer"),
            style := { font := some "bold" } },
          { content := .formula "SUM(Q7:V7)" (some (.num 3)),
            style := {} },
          demoSharedCell ] } ],
    colWidths := [some 15, none] }

/-- Witness for C1 on a concrete template sheet, at the shared-formula
cell (row 0, column 2). -/
theorem cloneSheet_faithful_witness :
    getCellAt (cloneSheet demoTemplateSheet) 0 2 = some (cloneCell demoSharedCell) ∧
    (cloneCell demoSharedCell).content = .formula "AH7*AI7" none ∧
    (cloneCell demoSharedCell).content.hasSharedLinkage = false := by
  have h := cloneSheet_faithful demoTemplateSheet 0 2 demoSharedCell (by decide)
  exact ⟨h.1, h.2.2.2.1 "AH7*AI7" "AH6" none rfl, h.2.2.2.2.1⟩

/-! ## Output filenames

Combined path of `generateExcel` (excel-generator.js 410–411):
```
let filename = `${company.name.replace(/\s+/g, '_')}_Linesheet.xlsx`;
```
(this is reached whenever `outputType !== 'separate' || catalogs.length <= 1`,
so a single selected catalog also yields the `_Linesheet` name), and the
per-catalog filename of `generateSeparateExcelFiles` (line 617):
```
const filename = `${company.name.replace(/\s+/g, '_')}_${catalog.name.replace(/\s+/g, '_')}.xlsx`;
```
`replace(/\s+/g, '_')` collapses each maximal whitespace run into a single
underscore; the embedding walks the characters with an in-run flag
(the Unicode space classes of JavaScript's `\s` beyond ASCII whitespace
are not exercised by the repository's data). -/

def jsWhitespace (c : Char) : Bool :=
  c = ' ' || c = '\t' || c = '\n' || c = '\x0d' || c = '\x0b' || c = '\x0c'

def collapseWs (inRun : Bool) : List Char → List Char
  | [] => []
  | c :: cs =>
    if jsWhitespace c then
      if inRun then collapseWs true cs else '_' :: collapseWs true cs
    else c :: collapseWs false cs

def sanitizeName (s : String) : String :=
  String.mk (collapseWs false s.data)

def combinedFilename (companyName : String) : String :=
  sanitizeName companyName ++ "_Linesheet.xlsx"

def separateCatalogFilename (companyName catalogName : String) : String :=
  sanitizeName companyName ++ "_" ++ sanitizeName catalogName ++ ".xlsx"

/-- Filenames produced by one `generateExcel` call: the separate-files
branch is taken exactly when `outputType === 'separate' && catalogs.length > 1`
(excel-generator.js 128); every other combination uses the single combined
workbook and its `_Linesheet.xlsx` name. -/
def generateFilenames (companyName : String) (catalogNames : List String)
    (outputType : String) : List String :=
  if outputType = "separate" ∧ 1 < catalogNames.length then
    catalogNames.map (separateCatalogFilename companyName)
  else
    [combinedFilename companyName]

/-- Counterexample to C4: for company "Acme Co" with the single catalog
"FW25" in combined mode, the generated filename is
"Acme_Co_Linesheet.xlsx", not the claimed "Acme_Co_FW25.xlsx". -/
theorem generateFilenames_single_catalog_cex :
    generateFilenames "Acme Co" ["FW25"] "combined" = ["Acme_Co_Linesheet.xlsx"] ∧
    ("Acme_Co_Linesheet.xlsx" : String) ≠ "Acme_Co_FW25.xlsx" := by
  constructor
  · decide
  · decide

/-- C4 (amended): the combined path — combined mode with any number of
catalogs, and separate mode with at most one catalog — always names its
output `{company}_Linesheet.xlsx` (spaces collapsed to underscores), even
for a single selected catalog; separate mode with more than one catalog
yields one `{company}_{catalogName}.xlsx` per catalog. -/
theorem generateFilenames_policy (companyName : String) (catalogNames : List String) :
    generateFilenames companyName catalogNames "combined" =
      [combinedFilename companyName] ∧
    (1 < catalogNames.length →
      generateFilenames companyName catalogNames "separate" =
        catalogNames.map (separateCatalogFilename companyName)) ∧
    (catalogNames.length ≤ 1 →
      generateFilenames companyName catalogNames "separate" =
        [combinedFilename companyName]) ∧
    combinedFilename companyName = sanitizeName companyName ++ "_Linesheet.xlsx" ∧
    (∀ n, separateCatalogFilename companyName n =
      sanitizeName companyName ++ "_" ++ sanitizeName n ++ ".xlsx") := by
  refine ⟨?_, ?_, ?_, rfl, fun n => rfl⟩
  · unfold generateFilenames
    rw [if_neg]
    intro hcontra
    exact absurd hcontra.1 (by decide)
  · intro hlen
    unfold generateFilenames
    rw [if_pos ⟨rfl, hlen⟩]
  · intro hlen
    unfold generateFilenames
    rw [if_neg]
    intro hcontra
    omega

/-- Witness for C4 (amended) at a concrete two-catalog separate-mode call. -/
theorem generateFilenames_policy_witness :
    generateFilenames "Acme Co" ["FW25", "SS26"] "separate" =
      ["Acme_Co_FW25.xlsx", "Acme_Co_SS26.xlsx"] := by
  have h := (generateFilenames_policy "Acme Co" ["FW25", "SS26"]).2.1 (by decide)
  rw [h]
  decide

/-! ## Size breaks (`SIZE_BREAKS`, excel-generator.js 8–22)

The static catalog, and the lookup performed per product row
(excel-generator.js 377–378, identically at 606–607):
```
const sizeBreakNum = parseInt(product.sizeBreak, 10) || 1;
const sizes = SIZE_BREAKS[sizeBreakNum] || [];
```
`parseInt(x, 10)` yields `NaN` when no leading integer can be parsed;
`NaN || 1` and `0 || 1` both give `1`, so a missing, empty or non-numeric
size break selects break "1", and only a parseable integer outside the
table (e.g. "5" or "-2") yields the empty list. -/

def SIZE_BREAKS_1 : List String :=
  ["M8/W9.5", "M8.5/W10", "M9/W10.5", "M9.5/W11", "M10/W11.5",
   "M10.5/W12", "M11/W12.5", "M11.5/W13", "M12/W13.5", "M12.5/W14",
   "M13/W14.5", "W5/M3.5", "W5.5/M4", "W6/M4.5", "W6.5/M5",
   "W7/M5.5", "W7.5/M6", "W8/M6.5", "W8.5/M7", "W9/M7.5"]

def SIZE_BREAKS_2 : List String :=
  ["M7.5-M8/W9-W9.5", "M8.5-M9/W10-W10.5", "M9.5-M10/W11-W11.5",
   "M10.5-M11/W12-W12.5", "M11.5-M12/W13-W13.5", "M12.5-M13/W14-W14.5",
   "W5-W5.5/M3.5-M4", "W6-W6.5/M4.5-M5", "W7-W7.5/M5.5-M6", "W8-W8.5/M6.5-M7"]

def SIZE_BREAKS_3 : List String := ["XS", "S", "M", "L", "XL", "XXL"]

def SIZE_BREAKS_4 : List String := ["One Size"]

/-- JavaScript `parseInt(s, 10)`: skip leading whitespace, accept an
optional sign, then the maximal run of decimal digits; `none` models `NaN`. -/
def jsParseInt (s : String) : Option Int :=
  let l := s.data.dropWhile jsWhitespace
  match l with
  | '-' :: rest =>
    let ds := rest.takeWhile Char.isDigit
    if ds = [] then none
    else some (-(ds.foldl (fun acc c => acc * 10 + (c.toNat - 48)) 0 : Int))
  | '+' :: rest =>
    let ds := rest.takeWhile Char.isDigit
    if ds = [] then none
    else some ((ds.foldl (fun acc c => acc * 10 + (c.toNat - 48)) 0 : Nat) : Int)
  | _ =>
    let ds := l.takeWhile Char.isDigit
    if ds = [] then none
    else some ((ds.foldl (fun acc c => acc * 10 + (c.toNat - 48)) 0 : Nat) : Int)

def sizeBreakNum (sizeBreak : String) : Int :=
  match jsParseInt sizeBreak with
  | none => 1
  | some m => if m = 0 then 1 else m

def sizeBreakLookup (sizeBreak : String) : List String :=
  let n := sizeBreakNum sizeBreak
  if n = 1 then SIZE_BREAKS_1
  else if n = 2 then SIZE_BREAKS_2
  else if n = 3 then SIZE_BREAKS_3
  else if n = 4 then SIZE_BREAKS_4
  else []

/-- Size-break cell written by the combined-path row writer
(excel-generator.js 363): `row.getCell(13).value = product.sizeBreak || ''`. -/
def writtenSizeBreakCombined (sizeBreak : String) : String :=
  if sizeBreak = "" then "" else sizeBreak

/-- Size-break cell written by the separate-path row writer
(excel-generator.js 592): `row.getCell(13).value = product.sizeBreak || '1'`. -/
def writtenSizeBreakSeparate (sizeBreak : String) : String :=
  if sizeBreak = "" then "1" else sizeBreak

/-- Order-quantity cells written for a product: one blank cell per size
label, at columns `17 + sizeIndex` (column Q onward), excel-generator.js
381–389 (`sizes.forEach((size, sizeIndex) => { row.getCell(17 + sizeIndex)
... })`). -/
def sizeWritesGo (startIdx : Nat) : List String → List (Nat × String)
  | [] => []
  | _ :: rest => (startIdx, "") :: sizeWritesGo (startIdx + 1) rest

def sizeQuantityWrites (sizeBreak : String) : List (Nat × String) :=
  sizeWritesGo 17 (sizeBreakLookup sizeBreak)

theorem sizeWritesGo_length (l : List String) :
    ∀ k, (sizeWritesGo k l).length = l.length := by
  induction l with
  | nil => intro k; rfl
  | cons a l ih =>
    intro k
    show (sizeWritesGo (k + 1) l).length + 1 = l.length + 1
    rw [ih (k + 1)]

theorem sizeWritesGo_map_fst (l : List String) :
    ∀ k, (sizeWritesGo k l).map Prod.fst =
      (List.range l.length).map (fun j => k + j) := by
  induction l with
  | nil => intro k; rfl
  | cons a l ih =>
    intro k
    show ((k, ("" : String)) :: sizeWritesGo (k + 1) l).map Prod.fst =
      (List.range (l.length + 1)).map (fun j => k + j)
    rw [List.range_succ_eq_map]
    have hfun : ((fun j => k + j) ∘ Nat.succ) = (fun j => (k + 1) + j) := by
      funext j
      simp only [Function.comp_apply]
      omega
    simp only [List.map_cons, List.map_map, hfun, ih (k + 1), Nat.add_zero]

/-- Counterexample to C7: a product with an absent (empty) `sizeBreak`
does not get an empty size list — the `parseInt(...) || 1` default selects
break "1" with its 20 labels, so the row gets 20 size-quantity columns;
and the combined writer records `''`, not `"1"`, as the size-break value. -/
theorem sizeBreakLookup_absent_cex :
    sizeBreakLookup "" = SIZE_BREAKS_1 ∧
    sizeBreakLookup "" ≠ [] ∧
    (sizeQuantityWrites "").length = 20 ∧
    writtenSizeBreakCombined "" = "" ∧
    ("" : String) ≠ "1" := by
  refine ⟨by decide, by decide, by decide, by decide, by decide⟩

/-- C7 (amended): lookup by string key "1".."4" yields that break's fixed
ordered label list; the key is parsed as a leading integer, and an absent,
non-numeric or zero key defaults to break "1" (20 size columns), while a
parseable integer key outside the table yields the empty list and hence
zero size-quantity columns (no error).  The row writer emits one blank
order-quantity cell per label at columns 17 onward; the written size-break
cell is the raw value (defaulting to `''` in the combined writer and to
`"1"` in the separate writer). -/
theorem sizeBreakLookup_policy :
    sizeBreakLookup "1" = SIZE_BREAKS_1 ∧
    sizeBreakLookup "2" = SIZE_BREAKS_2 ∧
    sizeBreakLookup "3" = SIZE_BREAKS_3 ∧
    sizeBreakLookup "4" = SIZE_BREAKS_4 ∧
    sizeBreakLookup "" = SIZE_BREAKS_1 ∧
    sizeBreakLookup "abc" = SIZE_BREAKS_1 ∧
    sizeBreakLookup "0" = SIZE_BREAKS_1 ∧
    sizeBreakLookup "5" = [] ∧
    sizeBreakLookup "-2" = [] ∧
    (∀ sb, (sizeQuantityWrites sb).length = (sizeBreakLookup sb).length) ∧
    (∀ sb, (sizeQuantityWrites sb).map Prod.fst =
      (List.range (sizeBreakLookup sb).length).map (fun j => 17 + j)) ∧
    (∀ sb, writtenSizeBreakCombined sb = sb) ∧
    writtenSizeBreakSeparate "" = "1" ∧
    (∀ sb, sb ≠ "" → writtenSizeBreakSeparate sb = sb) := by
  refine ⟨by decide, by decide, by decide, by decide, by decide, by decide,
    by decide, by decide, by decide, ?_, ?_, ?_, by decide, ?_⟩
  · intro sb
    exact sizeWritesGo_length (sizeBreakLookup sb) 17
  · intro sb
    exact sizeWritesGo_map_fst (sizeBreakLookup sb) 17
  · intro sb
    unfold writtenSizeBreakCombined
    split
    · simp_all
    · rfl
  · intro sb hsb
    unfold writtenSizeBreakSeparate
    rw [if_neg hsb]

/-- Witness for C7 (amended) at the concrete key "3". -/
theorem sizeBreakLookup_policy_witness :
    writtenSizeBreakSeparate "3" = "3" ∧ sizeBreakLookup "3" = SIZE_BREAKS_3 :=
  ⟨sizeBreakLookup_policy.2.2.2.2.2.2.2.2.2.2.2.2.2 "3" (by decide),
    sizeBreakLookup_policy.2.2.1⟩

/-! ## Row formulas of the from-scratch generator (`addCatalogSheet`,
src/unnamed/part_000 lines 76–167)

That generator lays out 13 fixed headers, then one column per entry of
`allSizes` — built by padding with `Size ${n}` placeholders up to the
longest size-break list (20 entries) — then the five calculated columns.
Per product row `rowNumber` it sets
```
row.getCell(unitsCellIndex).value  = { formula: `SUM(${firstSizeColLetter}${rowNumber}:${lastSizeColLetter}${rowNumber})` };
row.getCell(totalWholesaleIndex).value = { formula: `${unitsColLetter}${rowNumber}*${wholesaleColLetter}${rowNumber}` };
row.getCell(totalRetailIndex).value    = { formula: `${unitsColLetter}${rowNumber}*${retailColLetter}${rowNumber}` };
```
with `firstSizeCol = headers.length + 1`, `lastSizeCol = headers.length +
allSizes.length`, and the calculated indices following on.  The
template-based generator under `src/excel-generator.js` writes no row
formulas at all (its comment: "Set values for sizes instead of adding
formulas to avoid shared formula issues"). -/

def linesheetHeaders : List String :=
  ["Style Image", "Style Name", "Style Number", "Color", "Color Code", "Season",
   "Evergreen", "Country of Origin", "Fabrication", "Material Composition",
   "Category", "Subcategory", "Size Break"]

/-- Inner `while (index >= allSizes.length) allSizes.push(...)` loop: append
`Size ${allSizes.length + 1}` placeholders `k` times. -/
def appendPlaceholderSizes (acc : List String) : Nat → List String
  | 0 => acc
  | k + 1 => appendPlaceholderSizes (acc ++ ["Size " ++ toString (acc.length + 1)]) k

def padSizesTo (acc : List String) (n : Nat) : List String :=
  appendPlaceholderSizes acc (n - acc.length)

def allSizes : List String :=
  [SIZE_BREAKS_1, SIZE_BREAKS_2, SIZE_BREAKS_3, SIZE_BREAKS_4].foldl
    (fun acc sizes => padSizesTo acc sizes.length) []

def firstSizeCol : Nat := linesheetHeaders.length + 1
def lastSizeCol : Nat := linesheetHeaders.length + allSizes.length
def unitsCellIndex : Nat := linesheetHeaders.length + allSizes.length + 1
def wholesalePriceIndex : Nat := unitsCellIndex + 1
def retailPriceIndex : Nat := wholesalePriceIndex + 1
def totalWholesaleIndex : Nat := retailPriceIndex + 1
def totalRetailIndex : Nat := totalWholesaleIndex + 1

def unitsFormula (rowNumber : Nat) : String :=
  "SUM(" ++ getExcelColumn firstSizeCol ++ toString rowNumber ++ ":" ++
    getExcelColumn lastSizeCol ++ toString rowNumber ++ ")"

def totalWholesaleFormula (rowNumber : Nat) : String :=
  getExcelColumn unitsCellIndex ++ toString rowNumber ++ "*" ++
    getExcelColumn wholesalePriceIndex ++ toString rowNumber

def totalRetailFormula (rowNumber : Nat) : String :=
  getExcelColumn unitsCellIndex ++ toString rowNumber ++ "*" ++
    getExcelColumn retailPriceIndex ++ toString rowNumber

/-- Counterexample to C3: the from-scratch generator's size columns do not
start at column Q and their count is not the product's own size-column
count — for row 7 the units formula is "SUM(N7:AG7)" (13 fixed headers,
then all 20 padded size columns), never the claimed "SUM(Q7:V7)". -/
theorem unitsFormula_row7_cex :
    unitsFormula 7 = "SUM(N7:AG7)" ∧
    ("SUM(N7:AG7)" : String) ≠ "SUM(Q7:V7)" := by
  constructor
  · decide
  · decide

/-- C3 (amended): in the from-scratch generator each product row
`rowNumber` gets the units formula `SUM(N<row>:AG<row>)`, the
total-wholesale formula `AH<row>*AI<row>` and the total-retail formula
`AH<row>*AJ<row>`: the column letters are derived from the fixed header
width 13 plus the fixed padded size-column count 20 (not the per-product
size count, and not starting at column Q); the template-based generator
writes no row formulas at all. -/
theorem rowFormulas_policy (rowNumber : Nat) :
    unitsFormula rowNumber =
      "SUM(" ++ getExcelColumn 14 ++ toString rowNumber ++ ":" ++
        getExcelColumn 33 ++ toString rowNumber ++ ")" ∧
    totalWholesaleFormula rowNumber =
      getExcelColumn 34 ++ toString rowNumber ++ "*" ++
        getExcelColumn 35 ++ toString rowNumber ∧
    totalRetailFormula rowNumber =
      getExcelColumn 34 ++ toString rowNumber ++ "*" ++
        getExcelColumn 36 ++ toString rowNumber ∧
    getExcelColumn 14 = "N" ∧ getExcelColumn 33 = "AG" ∧
    getExcelColumn 34 = "AH" ∧ getExcelColumn 35 = "AI" ∧
    getExcelColumn 36 = "AJ" ∧
    linesheetHeaders.length = 13 ∧ allSizes.length = 20 :=
  ⟨rfl, rfl, rfl, by decide, by decide, by decide, by decide, by decide,
    by decide, by decide⟩

/-! ## Template loading of the combined path (`generateExcel`,
excel-generator.js 132–166)

```
try {
  await workbook.xlsx.readFile(templatePath);
} catch (error) {
  console.log('Falling back to generating workbook from scratch');
  ...
  workbook.addWorksheet('Winter 25');
  workbook.addWorksheet('Order Summary');
}
const templateSheet = workbook.getWorksheet('Winter 25');
const summarySheet = workbook.getWorksheet('Order Summary');
if (!templateSheet) { ...; return null; }
if (!summarySheet) { ...; return null; }
```
An unreadable template is silently replaced by a freshly-created workbook
whose two default sheets then pass the named-sheet checks; only a template
that loads but lacks one of the named sheets aborts the call (returning
`null`).  The outcome is modelled up to the stamped filename: `some`
means generation proceeds past the load/check phase, `none` means it
aborts. -/

structure TemplateFile where
  sheets : List (String × Sheet)
  deriving DecidableEq, Repr

def emptyWorksheet : Sheet := { rows := [], colWidths := [] }

def setupCombinedWorkbook (load : Option TemplateFile) : List (String × Sheet) :=
  match load with
  | some t => t.sheets
  | none => [("Winter 25", emptyWorksheet), ("Order Summary", emptyWorksheet)]

def getWorksheet (wb : List (String × Sheet)) (name : String) : Option Sheet :=
  (wb.find? (fun p => p.1 = name)).map Prod.snd

def combinedGenerationOutcome (load : Option TemplateFile)
    (companyName : String) : Option String :=
  let wb := setupCombinedWorkbook load
  match getWorksheet wb "Winter 25", getWorksheet wb "Order Summary" with
  | some _, some _ => some (combinedFilename companyName)
  | _, _ => none

/-- Counterexample to C6: an unreadable template (`load = none`) does not
fail the generation — the combined path silently falls back to a
freshly-created workbook with default "Winter 25"/"Order Summary" sheets
and produces an output. -/
theorem combinedGeneration_fallback_cex :
    combinedGenerationOutcome none "Acme Co" = some "Acme_Co_Linesheet.xlsx" := by
  decide

/-- C6 (amended): only a template that loads but is missing one of the
required named sheets ("Winter 25" or "Order Summary") aborts the combined
generation (the call returns null); an unreadable template is silently
replaced by a freshly-created fallback workbook whose default sheets pass
the checks, so generation proceeds — there is no fail-fast on an
unreadable template. -/
theorem combinedGeneration_failure_policy (companyName : String) (t : TemplateFile) :
    (getWorksheet t.sheets "Winter 25" = none →
      combinedGenerationOutcome (some t) companyName = none) ∧
    (getWorksheet t.sheets "Order Summary" = none →
      combinedGenerationOutcome (some t) companyName = none) ∧
    combinedGenerationOutcome none companyName = some (combinedFilename companyName) := by
  refine ⟨?_, ?_, rfl⟩
  · intro hmiss
    show (match getWorksheet t.sheets "Winter 25",
        getWorksheet t.sheets "Order Summary" with
      | some _, some _ => some (combinedFilename companyName)
      | _, _ => none) = none
    rw [hmiss]
  · intro hmiss
    show (match getWorksheet t.sheets "Winter 25",
        getWorksheet t.sheets "Order Summary" with
      | some _, some _ => some (combinedFilename companyName)
      | _, _ => none) = none
    rw [hmiss]
    cases getWorksheet t.sheets "Winter 25" <;> rfl

/-- Witness for C6 (amended) at a concrete template missing both required
sheets. -/
theorem combinedGeneration_failure_policy_witness :
    combinedGenerationOutcome (some { sheets := [("Sheet1", emptyWorksheet)] })
      "Acme Co" = none :=
  (combinedGeneration_failure_policy "Acme Co"
    { sheets := [("Sheet1", emptyWorksheet)] }).1 (by decide)

/-! ## Serialization with formula-stripping retry (`generateExcel`,
excel-generator.js 413–445)

```
try {
  const buffer = await finalWorkbook.xlsx.writeBuffer();
  return { buffer, filename };
} catch (writeError) {
  finalWorkbook.eachSheet(sheet => { ... if (cell.type === Formula) {
    if (cell.value && cell.value.result !== undefined) cell.value = cell.value.result;
    else cell.value = null; } ... });
  const buffer = await finalWorkbook.xlsx.writeBuffer();   // not wrapped: a
  return { buffer, filename };                             // failure rejects
}
```
The serializer is modelled as an oracle `ser`; a `none` result models a
thrown `writeBuffer` error.  The recovery pass `stripCell` replaces every
formula cell by its cached result, or by null when there is none. -/

def stripCell (c : SheetCell) : SheetCell :=
  { c with content :=
      match c.content with
      | .formula _ (some r) => .value r
      | .formula _ none => .blank
      | .sharedFormula _ _ (some r) => .value r
      | .sharedFormula _ _ none => .blank
      | other => other }

def stripWorkbookFormulas (wb : List Sheet) : List Sheet :=
  wb.map (fun s =>
    { s with rows := s.rows.map (fun r =>
        { r with cells := r.cells.map stripCell }) })

/-- Number of `writeBuffer` invocations performed by the combined path for
a given serializer oracle and workbook. -/
def serializeAttempts (ser : List Sheet → Option Nat) (wb : List Sheet) : Nat :=
  match ser wb with
  | some _ => 1
  | none => 2

def serializeWithRecovery (ser : List Sheet → Option Nat) (wb : List Sheet) :
    Except Unit Nat :=
  match ser wb with
  | some b => .ok b
  | none =>
    match ser (stripWorkbookFormulas wb) with
    | some b => .ok b
    | none => .error ()

/-! A counterexample to C5 (the separate-mode path swallowing a double
serialization failure instead of failing the request) is stated below,
after the separate-mode model. -/

/-- C5 (amended): when serialization of the combined workbook fails, the
recovery pass replaces every formula cell with its last cached computed
value (or null when there is none), serialization is retried exactly once
(never more than twice in total), and — in the combined path — a second
failure surfaces the error and fails the request; in the separate path a
second failure instead silently drops that catalog's file. -/
theorem serializeRecovery_policy (ser : List Sheet → Option Nat) (wb : List Sheet) :
    serializeAttempts ser wb ≤ 2 ∧
    (serializeAttempts ser wb = 2 ↔ ser wb = none) ∧
    (∀ b, ser wb = some b → serializeWithRecovery ser wb = .ok b) ∧
    (ser wb = none → ∀ b, ser (stripWorkbookFormulas wb) = some b →
      serializeWithRecovery ser wb = .ok b) ∧
    (serializeWithRecovery ser wb = .error () ↔
      (ser wb = none ∧ ser (stripWorkbookFormulas wb) = none)) ∧
    (∀ c : SheetCell,
      (stripCell c).content.isFormulaLike = false ∧
      (∀ text r, c.content = .formula text (some r) →
        (stripCell c).content = .value r) ∧
      (∀ text, c.content = .formula text none → (stripCell c).content = .blank) ∧
      (∀ text m r, c.content = .sharedFormula text m (some r) →
        (stripCell c).content = .value r) ∧
      (∀ text m, c.content = .sharedFormula text m none →
        (stripCell c).content = .blank)) := by
  refine ⟨?_, ?_, ?_, ?_, ?_, ?_⟩
  · cases h : ser wb <;> simp only [serializeAttempts, h] <;> omega
  · cases h : ser wb <;> simp [serializeAttempts, h]
  · intro b hb
    unfold serializeWithRecovery
    rw [hb]
  · intro h1 b hb
    unfold serializeWithRecovery
    rw [h1, hb]
  · unfold serializeWithRecovery
    cases h1 : ser wb with
    | some b => simp
    | none =>
      cases h2 : ser (stripWorkbookFormulas wb) with
      | some b => simp
      | none => simp
  · intro c
    refine ⟨?_, ?_, ?_, ?_, ?_⟩
    · cases hc : c.content with
      | blank => simp [stripCell, hc, CellContent.isFormulaLike]
      | value v => simp [stripCell, hc, CellContent.isFormulaLike]
      | formula t r => cases r <;> simp [stripCell, hc, CellContent.isFormulaLike]
      | sharedFormula t m r => cases r <;> simp [stripCell, hc, CellContent.isFormulaLike]
    · intro text r hc; simp [stripCell, hc]
    · intro text hc; simp [stripCell, hc]
    · intro text m r hc; simp [stripCell, hc]
    · intro text m hc; simp [stripCell, hc]

def hasAnyFormula (wb : List Sheet) : Bool :=
  wb.any (fun s => s.rows.any (fun r => r.cells.any (fun c => c.content.isFormulaLike)))

def demoFormulaWorkbook : List Sheet :=
  [{ rows := [{ height := none,
                cells := [{ content := .formula "SUM(N8:AG8)" (some (.num 12)),
                            style := {} }] }],
     colWidths := [] }]

def demoFragileSerializer (wb : List Sheet) : Option Nat :=
  if hasAnyFormula wb then none else some 7

/-- Witness for C5 (amended): a serializer that rejects any workbook still
containing formulas fails the first attempt on `demoFormulaWorkbook`,
succeeds on the stripped retry, and the overall recovery returns its
buffer after exactly two attempts. -/
theorem serializeRecovery_policy_witness :
    serializeAttempts demoFragileSerializer demoFormulaWorkbook = 2 ∧
    serializeWithRecovery demoFragileSerializer demoFormulaWorkbook = .ok 7 := by
  have h := serializeRecovery_policy demoFragileSerializer demoFormulaWorkbook
  constructor
  · exact (h.2.1).mpr (by decide)
  · exact h.2.2.2.1 (by decide) 7 (by decide)

/-! ## Image fetching (`getOptimizedImageUrl` and `fetchImageBuffer`,
excel-generator.js 29–115)

`getOptimizedImageUrl` inserts `_150x` before the last-dot extension,
keeping any query string that starts at or after the last dot; a URL with
no dot (or an empty/placeholder URL) is returned unchanged.
`fetchImageBuffer` skips empty/placeholder references with no network
call, fetches the optimized URL first, and on failure retries the original
URL exactly when the original does not already contain the substring
`_150x` (`if (!imageUrl.includes('_150x'))`) — note this is not the same
condition as "optimized differs from original".  It never throws: both
failures yield null.  The network is the oracle `net`; the second
component of the result records the URLs attempted, in order. -/

def isPrefixOfChars : List Char → List Char → Bool
  | [], _ => true
  | _ :: _, [] => false
  | a :: as, b :: bs => a = b && isPrefixOfChars as bs

def containsSubAux (sub : List Char) : List Char → Bool
  | [] => sub.isEmpty
  | c :: cs => isPrefixOfChars sub (c :: cs) || containsSubAux sub cs

/-- JavaScript `s.includes(subStr)`. -/
def containsSubstr (s subStr : String) : Bool :=
  containsSubAux subStr.data s.data

def lastIdxOf (c : Char) : List Char → Option Nat
  | [] => none
  | x :: xs =>
    match lastIdxOf c xs with
    | some i => some (i + 1)
    | none => if x = c then some 0 else none

def idxOfFrom (c : Char) (l : List Char) (start : Nat) : Option Nat :=
  match (l.drop start).findIdx? (fun x => x = c) with
  | some i => some (start + i)
  | none => none

def getOptimizedImageUrl (imageUrl : String) : String :=
  if imageUrl = "" || containsSubstr imageUrl "/api/placeholder/" then imageUrl
  else
    match lastIdxOf '.' imageUrl.data with
    | none => imageUrl
    | some lastDotIndex =>
      match idxOfFrom '?' imageUrl.data lastDotIndex with
      | none =>
        String.mk (imageUrl.data.take lastDotIndex) ++ "_150x" ++
          String.mk (imageUrl.data.drop lastDotIndex)
      | some queryIndex =>
        String.mk (imageUrl.data.take lastDotIndex) ++ "_150x" ++
          String.mk ((imageUrl.data.drop lastDotIndex).take (queryIndex - lastDotIndex)) ++
          String.mk (imageUrl.data.drop queryIndex)

def fetchImageBuffer (net : String → Option Nat) (imageUrl : String) :
    Option Nat × List String :=
  if imageUrl = "" || containsSubstr imageUrl "/api/placeholder/" then (none, [])
  else
    let optimizedUrl := getOptimizedImageUrl imageUrl
    match net optimizedUrl with
    | some b => (some b, [optimizedUrl])
    | none =>
      if containsSubstr imageUrl "_150x" then (none, [optimizedUrl])
      else
        match net imageUrl with
        | some b => (some b, [optimizedUrl, imageUrl])
        | none => (none, [optimizedUrl, imageUrl])

/-- Counterexample to C8: for the URL "http://a/b_150x.png" the optimized
URL "http://a/b_150x_150x.png" differs from the original, yet no retry
against the original happens (only one attempt), because the retry guard
is `!imageUrl.includes('_150x')`, not "optimized differs from original". -/
theorem fetchImageBuffer_retry_guard_cex :
    getOptimizedImageUrl "http://a/b_150x.png" = "http://a/b_150x_150x.png" ∧
    ("http://a/b_150x_150x.png" : String) ≠ "http://a/b_150x.png" ∧
    fetchImageBuffer (fun _ => none) "http://a/b_150x.png" =
      (none, ["http://a/b_150x_150x.png"]) := by
  refine ⟨by decide, by decide, by decide⟩

/-- C8 (amended): `fetchImageBuffer` never raises (it is total, returning
null on failure); an empty or placeholder-pattern reference yields null
immediately with no network attempt; on failure of the optimized-URL fetch
it retries exactly once against the original unmodified URL if and only if
the original does not contain the substring "_150x" (regardless of whether
the optimized URL differs from it), and it returns null when all attempts
fail; at most two attempts are ever made. -/
theorem fetchImageBuffer_policy (net : String → Option Nat) (imageUrl : String) :
    fetchImageBuffer net "" = (none, []) ∧
    (containsSubstr imageUrl "/api/placeholder/" = true →
      fetchImageBuffer net imageUrl = (none, [])) ∧
    (imageUrl ≠ "" → containsSubstr imageUrl "/api/placeholder/" = false →
      (∀ b, net (getOptimizedImageUrl imageUrl) = some b →
        fetchImageBuffer net imageUrl = (some b, [getOptimizedImageUrl imageUrl])) ∧
      (net (getOptimizedImageUrl imageUrl) = none →
        (containsSubstr imageUrl "_150x" = true →
          fetchImageBuffer net imageUrl = (none, [getOptimizedImageUrl imageUrl])) ∧
        (containsSubstr imageUrl "_150x" = false →
          fetchImageBuffer net imageUrl =
            (net imageUrl, [getOptimizedImageUrl imageUrl, imageUrl])))) ∧
    (fetchImageBuffer net imageUrl).2.length ≤ 2 := by
  refine ⟨rfl, ?_, ?_, ?_⟩
  · intro hp
    unfold fetchImageBuffer
    rw [hp]
    simp
  · intro hne hp
    have hcond : (imageUrl = "" || containsSubstr imageUrl "/api/placeholder/") = false := by
      rw [hp]
      simp [hne]
    constructor
    · intro b hb
      unfold fetchImageBuffer
      rw [hcond]
      simp only [Bool.false_eq_true, if_false]
      rw [hb]
    · intro hfail
      constructor
      · intro h150
        unfold fetchImageBuffer
        rw [hcond]
        simp only [Bool.false_eq_true, if_false]
        rw [hfail, h150]
        rfl
      · intro h150
        unfold fetchImageBuffer
        rw [hcond]
        simp only [Bool.false_eq_true, if_false]
        rw [hfail, h150]
        simp only [Bool.false_eq_true, if_false]
        cases net imageUrl <;> rfl
  · unfold fetchImageBuffer
    cases hc : (imageUrl = "" || containsSubstr imageUrl "/api/placeholder/") with
    | true => simp
    | false =>
      simp only [Bool.false_eq_true, if_false]
      cases net (getOptimizedImageUrl imageUrl) with
      | some b => simp
      | none =>
        cases containsSubstr imageUrl "_150x" with
        | true => simp
        | false =>
          simp only [Bool.false_eq_true, if_false]
          cases net imageUrl <;> simp

/-- Witness for C8 (amended): a concrete URL without "_150x" and a network
that only serves the original URL — the optimized attempt fails and the
single retry against the original succeeds. -/
theorem fetchImageBuffer_policy_witness :
    fetchImageBuffer
      (fun u => if u = "http://cdn/shoe.png" then some 42 else none)
      "http://cdn/shoe.png" =
      (some 42, ["http://cdn/shoe_150x.png", "http://cdn/shoe.png"]) := by
  have h := ((fetchImageBuffer_policy
    (fun u => if u = "http://cdn/shoe.png" then some 42 else none)
    "http://cdn/shoe.png").2.2.1 (by decide) (by decide)).2 (by decide)
  have h2 := h.2 (by decide)
  rw [h2]
  decide

/-! ## Order summary sheet (`addOrderSummarySheet` and `hashString`,
src/unnamed/part_000 lines 200–327 and 348–358)

Per catalog the builder walks the products, and for each first occurrence
of a `(category || 'Uncategorized', subcategory || 'Uncategorized')` pair
pushes one rollup row whose figures are derived deterministically from
`hashString(`${catalog.name}-${category}-${subcategory}`)`:
```
const units = 5 + (productHash % 20);
const avgWholesale = 35 + (productHash % 30);
const avgRetail = avgWholesale * 2.5;
... { units, wholesale: units * avgWholesale, retail: units * avgRetail }
```
and the grand-total row sums the per-row aggregates with `reduce`.
`hashString` is the classic `hash = ((hash << 5) - hash) + char` loop with
`hash & hash` coercing to a 32-bit signed integer each step, and
`Math.abs` at the end; it is modelled over `Int` with explicit wrapping
(`charCodeAt` and Lean's `Char.toNat` agree on the basic-plane characters
the repository handles). -/

def toInt32 (x : Int) : Int :=
  let m := x % 4294967296
  if m < 2147483648 then m else m - 4294967296

def hashStep (hash : Int) (c : Char) : Int :=
  toInt32 (toInt32 (hash * 32) - hash + c.toNat)

def hashString (str : String) : Nat :=
  (str.data.foldl hashStep 0).natAbs

structure Product where
  name : String := ""
  styleNumber : String := ""
  color : String := ""
  category : String := ""
  subcategory : String := ""
  sizeBreak : String := ""
  image : String := ""
  wholesalePrice : ℚ := 0
  suggRetailPrice : ℚ := 0
  deriving DecidableEq, Repr

structure Catalog where
  id : String := ""
  name : String := ""
  seasonYear : String := ""
  startShip : String := ""
  completeShip : String := ""
  products : List Product := []
  deriving DecidableEq, Repr

/-- JavaScript `s || dflt` on strings (the empty string is falsy). -/
def jsOr (s dflt : String) : String := if s = "" then dflt else s

structure SummaryRow where
  seasonYear : String
  delivery : String
  category : String
  subcategory : String
  units : Nat
  wholesale : ℚ
  retail : ℚ
  deriving DecidableEq, Repr

def summaryKey (catalogName category subcategory : String) : String :=
  catalogName ++ "-" ++ category ++ "-" ++ subcategory

def mkSummaryRow (c : Catalog) (category subcategory : String) : SummaryRow :=
  { seasonYear := c.seasonYear,
    delivery := c.name,
    category := category,
    subcategory := subcategory,
    units := 5 + hashString (summaryKey c.name category subcategory) % 20,
    wholesale :=
      ((5 + hashString (summaryKey c.name category subcategory) % 20 : Nat) : ℚ) *
        ((35 + hashString (summaryKey c.name category subcategory) % 30 : Nat) : ℚ),
    retail :=
      ((5 + hashString (summaryKey c.name category subcategory) % 20 : Nat) : ℚ) *
        (((35 + hashString (summaryKey c.name category subcategory) % 30 : Nat) : ℚ) * 5 / 2) }

def pairOf (p : Product) : String × String :=
  (jsOr p.category "Uncategorized", jsOr p.subcategory "Uncategorized")

/-- The grouping loop: the nested `categories[category][subcategory]`
first-seen marker object is the set of already-emitted pairs. -/
def summaryGo (c : Catalog) :
    List Product → List (String × String) → List SummaryRow
  | [], _ => []
  | p :: ps, seen =>
    if pairOf p ∈ seen then summaryGo c ps seen
    else mkSummaryRow c (pairOf p).1 (pairOf p).2 :: summaryGo c ps (pairOf p :: seen)

def addOrderSummaryRows (catalogs : List Catalog) : List SummaryRow :=
  (catalogs.map (fun c => summaryGo c c.products [])).flatten

def grandTotalUnits (rows : List SummaryRow) : Nat :=
  (rows.map (fun r => r.units)).sum

def grandTotalWholesale (rows : List SummaryRow) : ℚ :=
  (rows.map (fun r => r.wholesale)).sum

def grandTotalRetail (rows : List SummaryRow) : ℚ :=
  (rows.map (fun r => r.retail)).sum

/-- First-occurrence deduplication of a list of pairs, relative to a set of
pairs already seen. -/
def firstOccur :
    List (String × String) → List (String × String) → List (String × String)
  | [], _ => []
  | q :: qs, seen =>
    if q ∈ seen then firstOccur qs seen
    else q :: firstOccur qs (q :: seen)

theorem summaryGo_eq_firstOccur (c : Catalog) :
    ∀ ps seen, summaryGo c ps seen =
      (firstOccur (ps.map pairOf) seen).map (fun q => mkSummaryRow c q.1 q.2) := by
  intro ps
  induction ps with
  | nil => intro seen; rfl
  | cons p ps ih =>
    intro seen
    by_cases hq : pairOf p ∈ seen
    · simp only [summaryGo, List.map_cons, firstOccur, if_pos hq]
      exact ih seen
    · simp only [summaryGo, List.map_cons, firstOccur, if_neg hq, List.map_cons]
      rw [ih (pairOf p :: seen)]

theorem firstOccur_nodup_and_fresh :
    ∀ l seen, (firstOccur l seen).Nodup ∧ ∀ x ∈ firstOccur l seen, x ∉ seen := by
  intro l
  induction l with
  | nil =>
    intro seen
    exact ⟨List.nodup_nil, by intro x hx; cases hx⟩
  | cons q qs ih =>
    intro seen
    by_cases hq : q ∈ seen
    · simp only [firstOccur, if_pos hq]
      exact ih seen
    · simp only [firstOccur, if_neg hq]
      obtain ⟨hnd, hfresh⟩ := ih (q :: seen)
      refine ⟨List.nodup_cons.mpr ⟨?_, hnd⟩, ?_⟩
      · intro hmem
        exact (hfresh q hmem) (List.mem_cons_self q seen)
      · intro x hx
        rcases List.mem_cons.mp hx with rfl | hx2
        · exact hq
        · intro hxseen
          exact hfresh x hx2 (List.mem_cons_of_mem q hxseen)

theorem addOrderSummaryRows_eq_firstOccur (catalogs : List Catalog) :
    addOrderSummaryRows catalogs =
      (catalogs.map (fun c =>
        (firstOccur (c.products.map pairOf) []).map
          (fun q => mkSummaryRow c q.1 q.2))).flatten := by
  unfold addOrderSummaryRows
  have h : (fun c : Catalog => summaryGo c c.products []) =
      (fun c : Catalog => (firstOccur (c.products.map pairOf) []).map
        (fun q => mkSummaryRow c q.1 q.2)) :=
    funext (fun c => summaryGo_eq_firstOccur c c.products [])
  rw [h]

/-- C9: the summary builder is a pure function of the catalogs'
(catalog name, category, subcategory) data: per catalog it emits exactly
one rollup row per distinct defaulted (category, subcategory) pair, in
first-occurrence order (the emitted pair list is duplicate-free), each
row's units/wholesale/retail being the deterministic hash-derived figures
of `{catalog.name}-{category}-{subcategory}`; and the grand-total row's
units, wholesale and retail are the arithmetic sums of the corresponding
per-row aggregates. -/
theorem addOrderSummary_policy (catalogs : List Catalog) :
    addOrderSummaryRows catalogs =
      (catalogs.map (fun c =>
        (firstOccur (c.products.map pairOf) []).map
          (fun q => mkSummaryRow c q.1 q.2))).flatten ∧
    (∀ c : Catalog, (firstOccur (c.products.map pairOf) []).Nodup) ∧
    (∀ c category subcategory,
      (mkSummaryRow c category subcategory).units =
        5 + hashString (c.name ++ "-" ++ category ++ "-" ++ subcategory) % 20 ∧
      (mkSummaryRow c category subcategory).wholesale =
        ((5 + hashString (c.name ++ "-" ++ category ++ "-" ++ subcategory) % 20 : Nat) : ℚ) *
          ((35 + hashString (c.name ++ "-" ++ category ++ "-" ++ subcategory) % 30 : Nat) : ℚ) ∧
      (mkSummaryRow c category subcategory).retail =
        ((5 + hashString (c.name ++ "-" ++ category ++ "-" ++ subcategory) % 20 : Nat) : ℚ) *
          (((35 + hashString (c.name ++ "-" ++ category ++ "-" ++ subcategory) % 30 : Nat) : ℚ) * 5 / 2) ∧
      (mkSummaryRow c category subcategory).delivery = c.name ∧
      (mkSummaryRow c category subcategory).category = category ∧
      (mkSummaryRow c category subcategory).subcategory = subcategory) ∧
    grandTotalUnits (addOrderSummaryRows catalogs) =
      ((addOrderSummaryRows catalogs).map (fun r => r.units)).sum ∧
    grandTotalWholesale (addOrderSummaryRows catalogs) =
      ((addOrderSummaryRows catalogs).map (fun r => r.wholesale)).sum ∧
    grandTotalRetail (addOrderSummaryRows catalogs) =
      ((addOrderSummaryRows catalogs).map (fun r => r.retail)).sum :=
  ⟨addOrderSummaryRows_eq_firstOccur catalogs,
    fun c => (firstOccur_nodup_and_fresh (c.products.map pairOf) []).1,
    fun c category subcategory => ⟨rfl, rfl, rfl, rfl, rfl, rfl⟩,
    rfl, rfl, rfl⟩

/-! ## Separate-files mode (`generateSeparateExcelFiles`,
excel-generator.js 451–671)

Per catalog the loop: reloads the template (`catch { continue; }`), checks
the two required sheets (`if (!templateSheet || !summarySheet) continue;`),
builds the sheet, then `writeBuffer` inside `try`; on failure it strips
formulas and retries once inside a nested `try`, and a second failure is
only logged — the catalog's file is simply not pushed and the loop
continues, so the call always resolves with the collected `files` list.

Per-catalog external effects are modelled as an environment record:
`loadOk` (template read), `sheetsOk` (required named sheets present), and
the outcomes of the at-most-two serialization attempts the source contains
syntactically (`ser1` the first `writeBuffer`, `ser2` the retry after the
formula strip). -/

structure SepCatalogEnv where
  id : String := ""
  name : String := ""
  loadOk : Bool := true
  sheetsOk : Bool := true
  ser1 : Option Nat := none
  ser2 : Option Nat := none
  deriving DecidableEq, Repr

structure GeneratedFile where
  buffer : Nat
  filename : String
  catalogId : String
  deriving DecidableEq, Repr

def processSeparateCatalog (companyName : String) (e : SepCatalogEnv) :
    Option GeneratedFile :=
  if e.loadOk = false then none
  else if e.sheetsOk = false then none
  else
    match e.ser1 with
    | some b =>
      some { buffer := b,
             filename := separateCatalogFilename companyName e.name,
             catalogId := e.id }
    | none =>
      match e.ser2 with
      | some b =>
        some { buffer := b,
               filename := separateCatalogFilename companyName e.name,
               catalogId := e.id }
      | none => none

def generateSeparateExcelFiles (companyName : String)
    (envs : List SepCatalogEnv) : List GeneratedFile :=
  envs.filterMap (processSeparateCatalog companyName)

def sepCatalogFails (e : SepCatalogEnv) : Bool :=
  !e.loadOk || !e.sheetsOk || (e.ser1.isNone && e.ser2.isNone)

theorem processSeparateCatalog_none_iff (companyName : String) (e : SepCatalogEnv) :
    processSeparateCatalog companyName e = none ↔ sepCatalogFails e = true := by
  unfold processSeparateCatalog sepCatalogFails
  cases hl : e.loadOk <;> cases hs : e.sheetsOk <;>
    cases h1 : e.ser1 <;> cases h2 : e.ser2 <;> simp [hl, hs, h1, h2]

theorem length_filterMap_eq_countP {α β : Type} (f : α → Option β) (l : List α) :
    (l.filterMap f).length = l.countP (fun a => (f a).isSome) := by
  induction l with
  | nil => rfl
  | cons a l ih =>
    cases hf : f a with
    | none => simp [List.filterMap_cons, hf, List.countP_cons, ih]
    | some b => simp [List.filterMap_cons, hf, List.countP_cons, ih]

/-- C10: in separate mode each catalog whose template load fails, whose
required sheets are missing, or whose serialization fails on both attempts
is silently skipped: `generateSeparateExcelFiles` (a total function — the
source catches all three error classes and `continue`s) still returns its
files list, which simply omits every failing catalog (so it can be shorter
than the catalog list, or empty) while every non-failing catalog
contributes exactly one file with its id and sanitized filename. -/
theorem generateSeparateFiles_skip_policy (companyName : String)
    (envs : List SepCatalogEnv) :
    generateSeparateExcelFiles companyName envs =
      envs.filterMap (processSeparateCatalog companyName) ∧
    (∀ e, processSeparateCatalog companyName e = none ↔ sepCatalogFails e = true) ∧
    (generateSeparateExcelFiles companyName envs).length =
      envs.countP (fun e => (processSeparateCatalog companyName e).isSome) ∧
    (generateSeparateExcelFiles companyName envs).length ≤ envs.length ∧
    (∀ e, sepCatalogFails e = false →
      processSeparateCatalog companyName e =
        some { buffer := e.ser1.getD (e.ser2.getD 0),
               filename := separateCatalogFilename companyName e.name,
               catalogId := e.id }) := by
  refine ⟨rfl, processSeparateCatalog_none_iff companyName, ?_, ?_, ?_⟩
  · exact length_filterMap_eq_countP (processSeparateCatalog companyName) envs
  · show (envs.filterMap (processSeparateCatalog companyName)).length ≤ envs.length
    rw [length_filterMap_eq_countP]
    exact List.countP_le_length _
  · intro e hok
    unfold sepCatalogFails at hok
    unfold processSeparateCatalog
    cases hl : e.loadOk <;> cases hs : e.sheetsOk <;>
      cases h1 : e.ser1 <;> cases h2 : e.ser2 <;>
      simp [hl, hs, h1, h2] at hok ⊢

def sepEnvOkFW25 : SepCatalogEnv :=
  { id := "c1", name := "FW25", loadOk := true, sheetsOk := true,
    ser1 := some 3, ser2 := none }

def sepEnvLoadFail : SepCatalogEnv :=
  { id := "c2", name := "SS26", loadOk := false, sheetsOk := true,
    ser1 := some 4, ser2 := some 4 }

/-- Witness for C10: of two catalogs, the second fails to load its
template; the call still yields a one-element files list carrying the
first catalog's file. -/
theorem generateSeparateFiles_skip_policy_witness :
    processSeparateCatalog "Acme Co" sepEnvOkFW25 =
      some { buffer := 3, filename := "Acme_Co_FW25.xlsx", catalogId := "c1" } ∧
    (generateSeparateExcelFiles "Acme Co" [sepEnvOkFW25, sepEnvLoadFail]).length = 1 := by
  have h := generateSeparateFiles_skip_policy "Acme Co" [sepEnvOkFW25, sepEnvLoadFail]
  constructor
  · have h5 := h.2.2.2.2 sepEnvOkFW25 (by decide)
    rw [h5]
    decide
  · rw [h.2.2.1]
    decide

def sepEnvSerFail : SepCatalogEnv :=
  { id := "c3", name := "FW25", loadOk := true, sheetsOk := true,
    ser1 := none, ser2 := none }

def sepEnvOkSS26 : SepCatalogEnv :=
  { id := "c4", name := "SS26", loadOk := true, sheetsOk := true,
    ser1 := some 9, ser2 := none }

/-- Counterexample to C5: in separate mode, a catalog whose serialization
fails on both the first attempt and the post-strip retry does not make the
request fail — `generateSeparateExcelFiles` swallows the second failure,
drops that catalog's file, and the call resolves successfully with the
remaining files, so no error is surfaced to the caller. -/
theorem separateSerializationFailure_cex :
    sepEnvSerFail.ser1 = none ∧ sepEnvSerFail.ser2 = none ∧
    processSeparateCatalog "Acme Co" sepEnvSerFail = none ∧
    generateSeparateExcelFiles "Acme Co" [sepEnvSerFail, sepEnvOkSS26] =
      [{ buffer := 9, filename := "Acme_Co_SS26.xlsx", catalogId := "c4" }] := by
  refine ⟨rfl, rfl, by decide, by decide⟩
